import Mathlib

/-!
Shallow embedding of the jiralert alert-group-to-ticket reconciliation engine
(pkg/notify/notify.go), its template fast path (pkg/template/template.go) and
the defaults-to-receiver configuration merge (pkg/config/config.go), together
with theorems settling the frozen claims about this code.

External collaborators (the Go standard library string formatting, the JIRA
client transport, the text/template execution engine, the sha512 digest and
the alertmanager data package, none of which are part of this repository's
reconciliation source) are modelled at their interface boundary as explicit
function parameters or as small faithful definitions, each documented at its
definition site.
-/

namespace Jiralert

/-! ### Template engine (pkg/template/template.go) -/

/-- Scans a character list for two adjacent left-brace characters, the Go
template delimiter. This models the call strings.Contains(text, two left
braces) on line 52 of template.go: Go searches for the two-byte substring,
which over a character decomposition is exactly two adjacent brace
characters. -/
def hasTemplateDelim : List Char → Bool
  | c1 :: rest =>
    (match rest with
     | c2 :: _ => c1 = '\x7b' && c2 = '\x7b'
     | [] => false) || hasTemplateDelim rest
  | [] => false

/-- String-level wrapper for the template-delimiter test of Execute. -/
def containsTemplateDelim (s : String) : Bool := hasTemplateDelim s.data

/-- Template.Execute from template.go, lines 50 to 75. If the text carries no
template delimiter it is returned unchanged without parsing (the fast path on
lines 52 to 55). Otherwise the method clones the shared named-template
library, parses the text and executes it against the data; that whole tail is
external text/template machinery and is modelled by the supplied engine
function. -/
def Execute {α : Type} (engine : String → α → Except String String)
    (text : String) (data : α) : Except String String :=
  if containsTemplateDelim text = false then .ok text
  else engine text data

/-! ### Backend failure classification (notify.go, handleJiraErrResponse) -/

/-- Model of the go-jira response fields read by handleJiraErrResponse: the
HTTP status code, the status line, the response body and the request URL. -/
structure JiraResponse where
  statusCode : Nat
  status : String
  body : String
  url : String
  deriving Repr, DecidableEq

/-- handleJiraErrResponse from notify.go, lines 452 to 467. The Go err value
is modelled as an Option String (none models a nil error); errors.Errorf
always yields a non-nil error while errors.Wrapf yields nil exactly on a nil
input, modelled by Option.map. Go integer division of the non-negative
status code matches Nat division. -/
def handleJiraErrResponse (api : String) (resp : Option JiraResponse)
    (err : Option String) : Bool × Option String :=
  match resp with
  | some r =>
    if r.statusCode / 100 ≠ 2 then
      ((r.statusCode == 500 || r.statusCode == 503 || r.statusCode == 429),
       some ("JIRA request " ++ r.url ++ " returned status " ++ r.status ++
             ", error " ++ err.getD "<nil>" ++ ", body " ++ r.body))
    else
      (false, err.map (fun e => "JIRA request " ++ api ++ " failed: " ++ e))
  | none => (false, err.map (fun e => "JIRA request " ++ api ++ " failed: " ++ e))

/-! ### Configuration merge (pkg/config/config.go) -/

/-- Static-label merge step of Config.UnmarshalYAML, config.go lines 314 to
316: when the defaults carry a non-empty staticLabels list it is appended to
the receiver's list in place. -/
def mergeStaticLabels (defaults receiver : List String) : List String :=
  if defaults.length > 0 then receiver ++ defaults else receiver

/-! ### Group identity encoder (notify.go, toGroupTicketLabel) -/

/-- Byte-order comparison of two character lists, modelling Go's built-in
string ordering (used by the sort in the alertmanager package): shorter
prefixes sort first, otherwise the first differing code point decides. -/
def charListLe : List Char → List Char → Bool
  | [], _ => true
  | _ :: _, [] => false
  | a :: as, b :: bs =>
    if a.toNat < b.toNat then true
    else if b.toNat < a.toNat then false
    else charListLe as bs

/-- Key order on label pairs: compare the label names. -/
def keyLe (p q : String × String) : Prop := charListLe p.1.data q.1.data = true

instance : DecidableRel keyLe := fun _ _ => instDecidableEqBool _ _

/-- Modelled from the spec: the alertmanager package (KV.SortedPairs) is not
under src/. Per spec section 4.2 the encoder sorts the group labels by key;
a KV holds at most one value per key, so any sorting algorithm yields the
same result. The group-label mapping is modelled as an association list. -/
def sortedPairs (kv : List (String × String)) : List (String × String) :=
  List.insertionSort keyLe kv

/-- Lower-case hexadecimal digit, as emitted by Go's quoted escapes. -/
def hexDigit (n : Nat) : Char :=
  if n < 10 then Char.ofNat (48 + n) else Char.ofNat (87 + n)

/-- Go strconv.Quote escaping of one character, as produced by the %q verb of
fmt.Sprintf (standard-library behaviour, not repository code): double quote
and backslash are backslash-escaped, the seven C control escapes are named,
remaining control characters and the delete character take a two-digit hex
escape, and printable characters stay literal. Non-ASCII code points are kept
literal, matching Go for printable runes; the encoder's inputs of interest
here are ASCII. -/
def goQuoteChar (c : Char) : List Char :=
  if c = '"' then ['\\', '"']
  else if c = '\\' then ['\\', '\\']
  else if c = '\x07' then ['\\', 'a']
  else if c = '\x08' then ['\\', 'b']
  else if c = '\x0c' then ['\\', 'f']
  else if c = '\n' then ['\\', 'n']
  else if c = '\r' then ['\\', 'r']
  else if c = '\t' then ['\\', 't']
  else if c = '\x0b' then ['\\', 'v']
  else if c.toNat < 0x20 ∨ c.toNat = 0x7f then
    ['\\', 'x', hexDigit (c.toNat / 16), hexDigit (c.toNat % 16)]
  else [c]

/-- Go %q applied to a whole string: surrounding double quotes around the
escaped characters. -/
def goQuote (s : String) : String :=
  String.mk ('"' :: (s.data.map goQuoteChar).flatten ++ ['"'])

/-- Go %.200q: fmt precision on a string truncates it to 200 runes before
quoting (used for group-label values copied onto created tickets). -/
def goQuotePrec (n : Nat) (s : String) : String := goQuote (String.mk (s.data.take n))

/-- One pair rendered as name=quotedValue followed by a comma, the fragment
written per sorted pair in both encoder modes (notify.go lines 312 and
321 to 322). -/
def pairFragment (p : String × String) : String := p.1 ++ "=" ++ goQuote p.2 ++ ","

/-- toGroupTicketLabel from notify.go, lines 307 to 327. The sha512 digest of
the hashed mode is external library code and is passed in as the digest
parameter (the reconciliation logic uses the result only as an opaque
string). Plain mode builds ALERT, an opening brace, the comma-separated
sorted fragments, truncates the buffer by one byte (dropping the trailing
comma — or the opening brace itself when there are no labels), appends a
closing brace, and finally deletes every space via strings.Replace, which for
the single-space pattern is exactly a character filter. -/
def toGroupTicketLabel (digest : String → String)
    (groupLabels : List (String × String)) (hashJiraLabel : Bool) : String :=
  if hashJiraLabel then
    "JIRALERT\x7b" ++ digest (String.join ((sortedPairs groupLabels).map pairFragment)) ++ "\x7d"
  else
    let buf : List Char :=
      "ALERT\x7b".data ++ (((sortedPairs groupLabels).map pairFragment).map String.data).flatten
    String.mk ((buf.dropLast ++ ['\x7d']).filter (fun c => c ≠ ' '))

/-! ### Order lemmas for the key comparison -/

theorem charListLe_total (as : List Char) :
    ∀ bs, charListLe as bs = true ∨ charListLe bs as = true := by
  induction as with
  | nil => intro bs; left; rfl
  | cons a as ih =>
    intro bs
    cases bs with
    | nil => right; rfl
    | cons b bs =>
      simp only [charListLe]
      rcases Nat.lt_trichotomy a.toNat b.toNat with h | h | h
      · left; simp [h]
      · have h1 : ¬ a.toNat < b.toNat := by omega
        have h2 : ¬ b.toNat < a.toNat := by omega
        simp only [if_neg h1, if_neg h2]
        exact ih bs
      · right; simp [h]

theorem charListLe_trans (as : List Char) :
    ∀ bs cs, charListLe as bs = true → charListLe bs cs = true →
      charListLe as cs = true := by
  induction as with
  | nil => intro bs cs _ _; rfl
  | cons a as ih =>
    intro bs cs h1 h2
    cases bs with
    | nil => simp [charListLe] at h1
    | cons b bs =>
      cases cs with
      | nil => simp [charListLe] at h2
      | cons c cs =>
        simp only [charListLe] at h1 h2 ⊢
        split_ifs at h1 h2 ⊢ <;>
          first
            | rfl
            | omega
            | (exact ih bs cs h1 h2)

theorem charListLe_antisymm (as : List Char) :
    ∀ bs, charListLe as bs = true → charListLe bs as = true → as = bs := by
  induction as with
  | nil =>
    intro bs _ h2
    cases bs with
    | nil => rfl
    | cons b bs => simp [charListLe] at h2
  | cons a as ih =>
    intro bs h1 h2
    cases bs with
    | nil => simp [charListLe] at h1
    | cons b bs =>
      simp only [charListLe] at h1 h2
      split_ifs at h1 h2 <;> try omega
      have hn : a.toNat = b.toNat := by omega
      have hab : a = b := Char.eq_of_val_eq (UInt32.ext hn)
      exact hab ▸ congrArg (List.cons a) (ih bs h1 h2)

instance : IsTotal (String × String) keyLe :=
  ⟨fun p q => charListLe_total p.1.data q.1.data⟩

instance : IsTrans (String × String) keyLe :=
  ⟨fun p q r => charListLe_trans p.1.data q.1.data r.1.data⟩

/-- Strict key order: key order together with distinct keys. Antisymmetric
(vacuously so), which is what the sorted-permutation argument needs. -/
def keyStrict (p q : String × String) : Prop := keyLe p q ∧ p.1 ≠ q.1

instance : IsAntisymm (String × String) keyStrict :=
  ⟨fun p q hpq hqp => by
    exact absurd (String.ext (charListLe_antisymm _ _ hpq.1 hqp.1)) hpq.2⟩

theorem pairwise_keyStrict_of_sorted {l : List (String × String)}
    (hs : List.Pairwise keyLe l) (hnd : (l.map Prod.fst).Nodup) :
    List.Pairwise keyStrict l := by
  have h2 : List.Pairwise (fun p q : String × String => p.1 ≠ q.1) l :=
    List.pairwise_map.mp hnd
  exact (hs.and h2).imp (fun h => h)

/-- Sorting is insensitive to the input order of an association list with
pairwise-distinct keys. -/
theorem sortedPairs_perm_eq {kv1 kv2 : List (String × String)}
    (hperm : kv1.Perm kv2) (hnd : (kv1.map Prod.fst).Nodup) :
    sortedPairs kv1 = sortedPairs kv2 := by
  have p1 : (sortedPairs kv1).Perm kv1 := List.perm_insertionSort keyLe kv1
  have p2 : (sortedPairs kv2).Perm kv2 := List.perm_insertionSort keyLe kv2
  have hp : (sortedPairs kv1).Perm (sortedPairs kv2) :=
    p1.trans (hperm.trans p2.symm)
  have hs1 : List.Pairwise keyLe (sortedPairs kv1) :=
    List.sorted_insertionSort keyLe kv1
  have hs2 : List.Pairwise keyLe (sortedPairs kv2) :=
    List.sorted_insertionSort keyLe kv2
  have hnd1 : ((sortedPairs kv1).map Prod.fst).Nodup :=
    hnd.perm (p1.map Prod.fst).symm
  have hnd2 : ((sortedPairs kv2).map Prod.fst).Nodup :=
    (hnd.perm (hperm.map Prod.fst)).perm (p2.map Prod.fst).symm
  exact List.eq_of_perm_of_sorted hp
    (pairwise_keyStrict_of_sorted hs1 hnd1)
    (pairwise_keyStrict_of_sorted hs2 hnd2)

/-! ### Alertmanager data (pkg/alertmanager, consumed by Notify) -/

/-- Modelled from the spec: the alertmanager package is not under src/. Per
spec section 3 an Alert carries a status that is firing or resolved; only the
status is consumed by the reconciliation paths embedded here. -/
structure Alert where
  status : String
  deriving Repr, DecidableEq

/-- Modelled from the spec: the alertmanager notification data consumed by
Notify — the group-label mapping (an association list, keys unique) and the
ordered alert list. -/
structure AlertmanagerData where
  groupLabels : List (String × String)
  alerts : List Alert
  deriving Repr, DecidableEq

/-- Modelled from the spec: Alerts.Firing of the alertmanager package keeps
exactly the alerts whose status is the string firing. -/
def firingAlerts (alerts : List Alert) : List Alert :=
  alerts.filter (fun a => a.status == "firing")

/-! ### Ticket and configuration model (go-jira fields read by notify.go) -/

/-- Fields of a searched jira.Issue that notify.go reads. The resolution date
is a time value whose zero value (Go's time.Time zero) is modelled as the
integer 0, other instants as non-zero integers on the same clock as
NotifyInput.now; priority and resolution are nil-able pointers, modelled as
options over the Name field notify.go reads; comments is the list of comment
bodies in order (a nil Comments pointer and an empty comment list coincide,
both give numComments zero in notify.go). -/
structure Issue where
  key : String
  summary : String
  description : String
  priority : Option String
  statusCategoryKey : String
  resolution : Option String
  resolutiondate : Int
  comments : List String
  deriving Repr, DecidableEq

/-- Closed variant for a config fields value: an arbitrarily nested mix of
strings, sequences and string-keyed mappings (config.go converts all maps to
string-keyed maps at load time, discarding non-string keys, so only string
keys are representable here); other scalars pass through untouched. -/
inductive FieldValue where
  | str (s : String)
  | seq (l : List FieldValue)
  | map (l : List (String × FieldValue))
  | other
  deriving Repr

/-- Receiver configuration fields consumed by the notify.go paths embedded
here, after the defaults merge. Pointer-typed flags keep their nil case as
none, matching the nil checks in notify.go; reopenDuration is the dereferenced
duration in the same units as Issue.resolutiondate and NotifyInput.now. -/
structure ReceiverConfig where
  project : String
  otherProjects : List String
  issueType : String
  summary : String
  reopenState : String
  reopenDuration : Int
  priority : String
  description : String
  wontFixResolution : String
  staticLabels : List String
  components : List String
  addGroupLabels : Option Bool
  updateInComment : Option Bool
  autoResolve : Option String
  fields : List (String × FieldValue)

/-- Payload of a Create call as assembled by Notify's creation branch. -/
structure NewIssue where
  project : String
  issueType : String
  description : String
  summary : String
  labels : List String
  priority : Option String
  components : List String
  unknowns : List (String × FieldValue)

/-- One backend mutation issued through the jiraIssueService. The transition
constructor models doTransition(issueKey, transitionState) — the
list-transitions read, the lookup of the state name and the DoTransition
request — at the granularity the reconciliation logic decides on: which
ticket is driven towards which named state. -/
inductive JiraCall where
  | updateSummary (key summary : String)
  | addComment (key body : String)
  | updateDescription (key description : String)
  | updatePriority (key priority : String)
  | transition (key state : String)
  | create (issue : NewIssue)

/-- Result of one Notify call: the backend mutations issued in order (a call
that fails is still recorded as issued), the retryable flag and the error, if
any, that Notify returns. -/
structure NotifyResult where
  calls : List JiraCall
  retry : Bool
  err : Option String

/-- Inputs of one Notify call. Capabilities that Go injects through the
receiver or reach external services appear as functions: render is
r.tmpl.Execute applied to the fixed notification data of this call (its
delimiter fast path is the Execute definition above); digest is the sha512
hex digest used by toGroupTicketLabel; searchFn is the SearchV2JQL backend
keyed on the JQL query, already classified through handleJiraErrResponse on
failure; beh gives each issued mutation's outcome (none for success, or the
classified retryable flag and error); now is r.timeNow(). -/
structure NotifyInput where
  conf : ReceiverConfig
  hashJiraLabel : Bool
  updateSummary : Bool
  updateDescription : Bool
  reopenTickets : Bool
  maxDescriptionLength : Nat
  updatePriority : Bool
  data : AlertmanagerData
  render : String → Except String String
  digest : String → String
  searchFn : String → Except (Bool × String) (List Issue)
  beh : JiraCall → Option (Bool × String)
  now : Int

/-! ### Lookup (notify.go, search and findIssueToReuse) -/

/-- JQL query built by Receiver.search, notify.go lines 331 to 332. -/
def searchQuery (projects : List String) (issueLabel : String) : String :=
  "project in('" ++ String.intercalate "', '" projects ++ "') and labels=" ++
    goQuote issueLabel ++ " order by resolutiondate desc"

/-- Receiver.search, notify.go lines 329 to 357: build the query, call the
backend, return none on an empty result and the first issue otherwise (with
more than one match only a warning is logged and the first is used). -/
def search (searchFn : String → Except (Bool × String) (List Issue))
    (projects : List String) (issueLabel : String) :
    Except (Bool × String) (Option Issue) :=
  match searchFn (searchQuery projects issueLabel) with
  | .error e => .error e
  | .ok [] => .ok none
  | .ok (issue :: _) => .ok (some issue)

/-- Project list searched by findIssueToReuse, notify.go lines 360 to 366:
the rendered project followed by every configured other project that differs
from it. -/
def projectsToSearch (conf : ReceiverConfig) (project : String) : List String :=
  project :: conf.otherProjects.filter (fun other => other ≠ project)

/-- findIssueToReuse, notify.go lines 359 to 385: search, then drop a found
issue when its resolution time is non-zero, older than the reopen window, and
the window is itself non-zero. -/
def findIssueToReuse (conf : ReceiverConfig) (now : Int)
    (searchFn : String → Except (Bool × String) (List Issue))
    (project issueGroupLabel : String) :
    Except (Bool × String) (Option Issue) :=
  match search searchFn (projectsToSearch conf project) issueGroupLabel with
  | .error e => .error e
  | .ok none => .ok none
  | .ok (some issue) =>
    if issue.resolutiondate ≠ 0 ∧
        issue.resolutiondate + conf.reopenDuration < now ∧
        conf.reopenDuration ≠ 0 then
      .ok none
    else
      .ok (some issue)

/-! ### Field rendering for created tickets (notify.go, deepCopyWithTemplate) -/

mutual

/-- deepCopyWithTemplate, notify.go lines 252 to 298: render string leaves,
recurse into sequences and mappings (rendering each mapping key before its
value), pass every other scalar through unchanged. -/
def deepCopyWithTemplate (render : String → Except String String) :
    FieldValue → Except String FieldValue
  | .str s =>
    match render s with
    | .error e => .error e
    | .ok v => .ok (.str v)
  | .seq l =>
    match deepCopySeq render l with
    | .error e => .error e
    | .ok l' => .ok (.seq l')
  | .map l =>
    match deepCopyMap render l with
    | .error e => .error e
    | .ok l' => .ok (.map l')
  | .other => .ok .other

/-- Element-wise recursion of deepCopyWithTemplate over a sequence value. -/
def deepCopySeq (render : String → Except String String) :
    List FieldValue → Except String (List FieldValue)
  | [] => .ok []
  | v :: rest =>
    match deepCopyWithTemplate render v with
    | .error e => .error e
    | .ok v' =>
      match deepCopySeq render rest with
      | .error e => .error e
      | .ok rest' => .ok (v' :: rest')

/-- Entry-wise recursion of deepCopyWithTemplate over a mapping value. -/
def deepCopyMap (render : String → Except String String) :
    List (String × FieldValue) → Except String (List (String × FieldValue))
  | [] => .ok []
  | (k, v) :: rest =>
    match render k with
    | .error e => .error e
    | .ok k' =>
      match deepCopyWithTemplate render v with
      | .error e => .error e
      | .ok v' =>
        match deepCopyMap render rest with
        | .error e => .error e
        | .ok rest' => .ok ((k', v') :: rest')

end

/-- Field map rendering loop of Notify's creation branch, notify.go lines 239
to 244: each configured field value is deep-copied through the template
engine under its (untemplated) top-level key. -/
def fieldsRender (render : String → Except String String) :
    List (String × FieldValue) → Except String (List (String × FieldValue))
  | [] => .ok []
  | (k, v) :: rest =>
    match deepCopyWithTemplate render v with
    | .error e => .error e
    | .ok v' =>
      match fieldsRender render rest with
      | .error e => .error e
      | .ok rest' => .ok ((k, v') :: rest')

/-- Component rendering loop of Notify's creation branch, notify.go lines 221
to 231. -/
def componentsRender (render : String → Except String String) :
    List String → Except String (List String)
  | [] => .ok []
  | c :: rest =>
    match render c with
    | .error e => .error e
    | .ok c' =>
      match componentsRender render rest with
      | .error e => .error e
      | .ok rest' => .ok (c' :: rest')

/-! ### The reconciliation engine (notify.go, Notify) -/

/-- Issues one backend mutation: the call is appended to the trace; on
failure its classified outcome is returned, on success the continuation runs
on the extended trace. -/
def afterCall (beh : JiraCall → Option (Bool × String)) (trace : List JiraCall)
    (c : JiraCall) (k : List JiraCall → NotifyResult) : NotifyResult :=
  match beh c with
  | some (retry, e) => ⟨trace ++ [c], retry, some e⟩
  | none => k (trace ++ [c])

/-- Summary sync step, notify.go lines 102 to 110. -/
def syncSummary (inp : NotifyInput) (issueSummary : String) (issue : Issue)
    (k : List JiraCall → NotifyResult) (trace : List JiraCall) : NotifyResult :=
  if inp.updateSummary then
    if issue.summary ≠ issueSummary then
      afterCall inp.beh trace (.updateSummary issue.key issueSummary) k
    else k trace
  else k trace

/-- Comment step, notify.go lines 112 to 131: in comment mode the rendered
description is appended as a comment unless it equals the most recent
comment's body, or — when there are no comments yet — the ticket's current
description. -/
def syncComment (inp : NotifyInput) (issueDesc : String) (issue : Issue)
    (k : List JiraCall → NotifyResult) (trace : List JiraCall) : NotifyResult :=
  if inp.conf.updateInComment = some true then
    if issue.comments.length > 0 ∧ issue.comments.getLastD "" = issueDesc then
      k trace
    else if issue.comments.length = 0 ∧ issue.description = issueDesc then
      k trace
    else
      afterCall inp.beh trace (.addComment issue.key issueDesc) k
  else k trace

/-- Description sync step, notify.go lines 134 to 141. -/
def syncDescription (inp : NotifyInput) (issueDesc : String) (issue : Issue)
    (k : List JiraCall → NotifyResult) (trace : List JiraCall) : NotifyResult :=
  if inp.updateDescription then
    if issue.description ≠ issueDesc then
      afterCall inp.beh trace (.updateDescription issue.key issueDesc) k
    else k trace
  else k trace

/-- Priority sync step, notify.go lines 143 to 151. -/
def syncPriority (inp : NotifyInput) (issuePriority : String) (issue : Issue)
    (k : List JiraCall → NotifyResult) (trace : List JiraCall) : NotifyResult :=
  if inp.updatePriority then
    match issue.priority with
    | some p =>
      if p ≠ issuePriority then
        afterCall inp.beh trace (.updatePriority issue.key issuePriority) k
      else k trace
    | none => k trace
  else k trace

/-- Lifecycle tail of the matched-ticket branch, notify.go lines 153 to 186:
auto-resolve or stop when nothing is firing; stop while the ticket is open;
otherwise reopen unless disabled or the resolution is the exempt one. -/
def notifyTail (inp : NotifyInput) (issue : Issue) (trace : List JiraCall) :
    NotifyResult :=
  if (firingAlerts inp.data.alerts).length = 0 then
    match inp.conf.autoResolve with
    | some state =>
      afterCall inp.beh trace (.transition issue.key state) (fun tr => ⟨tr, false, none⟩)
    | none => ⟨trace, false, none⟩
  else if issue.statusCategoryKey ≠ "done" then ⟨trace, false, none⟩
  else if inp.reopenTickets then
    if inp.conf.wontFixResolution ≠ "" ∧
        issue.resolution = some inp.conf.wontFixResolution then
      ⟨trace, false, none⟩
    else
      afterCall inp.beh trace (.transition issue.key inp.conf.reopenState)
        (fun tr => ⟨tr, false, none⟩)
  else ⟨trace, false, none⟩

/-- Matched-ticket branch of Notify, notify.go lines 99 to 186: the four
field-sync steps followed by the lifecycle tail, threaded over the mutation
trace with early return on the first failed call. -/
def notifyExisting (inp : NotifyInput)
    (issueSummary issuePriority issueDesc : String) (issue : Issue) :
    NotifyResult :=
  syncSummary inp issueSummary issue
    (syncComment inp issueDesc issue
      (syncDescription inp issueDesc issue
        (syncPriority inp issuePriority issue
          (notifyTail inp issue)))) []

/-- Group-label entries appended to a created ticket's labels when
addGroupLabels is enabled, notify.go lines 233 to 237 (the fmt verb is
percent s, equals sign, percent dot 200 q). Go iterates the label map in
unspecified order; the entries are modelled in the association list's order. -/
def groupLabelEntries (groupLabels : List (String × String)) : List String :=
  groupLabels.map (fun kv => kv.1 ++ "=" ++ goQuotePrec 200 kv.2)

/-- Creation branch of Notify, notify.go lines 188 to 247: nothing to do
without firing alerts; otherwise render the issue type, assemble the labels
as staticLabels plus the group ticket label (plus group-label entries when
enabled), render priority (when configured) and components and fields, and
issue the single Create call. -/
def notifyCreate (inp : NotifyInput)
    (project issueGroupLabel issueSummary issueDesc : String) : NotifyResult :=
  if (firingAlerts inp.data.alerts).length = 0 then ⟨[], false, none⟩
  else
    match inp.render inp.conf.issueType with
    | .error e => ⟨[], false, some ("render issue type: " ++ e)⟩
    | .ok issueType =>
      let labels := inp.conf.staticLabels ++ [issueGroupLabel]
      match (if inp.conf.priority ≠ "" then (inp.render inp.conf.priority).map some
             else .ok none) with
      | .error e => ⟨[], false, some ("render issue priority: " ++ e)⟩
      | .ok priority =>
        match componentsRender inp.render inp.conf.components with
        | .error e => ⟨[], false, some ("render issue component: " ++ e)⟩
        | .ok components =>
          let labels := if inp.conf.addGroupLabels = some true then
              labels ++ groupLabelEntries inp.data.groupLabels
            else labels
          match fieldsRender inp.render inp.conf.fields with
          | .error e => ⟨[], false, some e⟩
          | .ok unknowns =>
            afterCall inp.beh []
              (.create ⟨project, issueType, issueDesc, issueSummary, labels,
                        priority, components, unknowns⟩)
              (fun tr => ⟨tr, false, none⟩)

/-- Description truncation of Notify, notify.go lines 94 to 97 (Go slices
bytes; modelled at character granularity, identical on ASCII). -/
def truncateDescription (maxDescriptionLength : Nat) (d : String) : String :=
  if d.length > maxDescriptionLength then String.mk (d.data.take maxDescriptionLength)
  else d

/-- Receiver.Notify, notify.go lines 64 to 247: render the project, compute
the group ticket label, look up a reusable ticket, render summary, priority
and description, then run the matched-ticket branch or the creation branch. -/
def notify (inp : NotifyInput) : NotifyResult :=
  match inp.render inp.conf.project with
  | .error e => ⟨[], false, some ("generate project from template: " ++ e)⟩
  | .ok project =>
    let issueGroupLabel :=
      toGroupTicketLabel inp.digest inp.data.groupLabels inp.hashJiraLabel
    match findIssueToReuse inp.conf inp.now inp.searchFn project issueGroupLabel with
    | .error (retry, e) => ⟨[], retry, some e⟩
    | .ok issueOpt =>
      match inp.render inp.conf.summary with
      | .error e => ⟨[], false, some ("generate summary from template: " ++ e)⟩
      | .ok issueSummary =>
        match inp.render inp.conf.priority with
        | .error e => ⟨[], false, some ("generate priority from template: " ++ e)⟩
        | .ok issuePriority =>
          match inp.render inp.conf.description with
          | .error e => ⟨[], false, some ("render issue description: " ++ e)⟩
          | .ok issueDesc0 =>
            let issueDesc := truncateDescription inp.maxDescriptionLength issueDesc0
            match issueOpt with
            | some issue =>
              notifyExisting inp issueSummary issuePriority issueDesc issue
            | none =>
              notifyCreate inp project issueGroupLabel issueSummary issueDesc

/-! ### Trace characterization of the matched-ticket branch -/

/-- Calls issued by the summary sync step. -/
def syncSummaryCalls (inp : NotifyInput) (issueSummary : String) (issue : Issue) :
    List JiraCall :=
  if inp.updateSummary then
    if issue.summary ≠ issueSummary then [.updateSummary issue.key issueSummary] else []
  else []

/-- Calls issued by the comment step. -/
def syncCommentCalls (inp : NotifyInput) (issueDesc : String) (issue : Issue) :
    List JiraCall :=
  if inp.conf.updateInComment = some true then
    if issue.comments.length > 0 ∧ issue.comments.getLastD "" = issueDesc then []
    else if issue.comments.length = 0 ∧ issue.description = issueDesc then []
    else [.addComment issue.key issueDesc]
  else []

/-- Calls issued by the description sync step. -/
def syncDescriptionCalls (inp : NotifyInput) (issueDesc : String) (issue : Issue) :
    List JiraCall :=
  if inp.updateDescription then
    if issue.description ≠ issueDesc then [.updateDescription issue.key issueDesc] else []
  else []

/-- Calls issued by the priority sync step. -/
def syncPriorityCalls (inp : NotifyInput) (issuePriority : String) (issue : Issue) :
    List JiraCall :=
  if inp.updatePriority then
    match issue.priority with
    | some p => if p ≠ issuePriority then [.updatePriority issue.key issuePriority] else []
    | none => []
  else []

/-- Calls issued by the lifecycle tail. -/
def notifyTailCalls (inp : NotifyInput) (issue : Issue) : List JiraCall :=
  if (firingAlerts inp.data.alerts).length = 0 then
    match inp.conf.autoResolve with
    | some state => [.transition issue.key state]
    | none => []
  else if issue.statusCategoryKey ≠ "done" then []
  else if inp.reopenTickets then
    if inp.conf.wontFixResolution ≠ "" ∧
        issue.resolution = some inp.conf.wontFixResolution then []
    else [.transition issue.key inp.conf.reopenState]
  else []

theorem afterCall_ok {beh : JiraCall → Option (Bool × String)}
    (hb : beh = fun _ => none) (trace : List JiraCall) (c : JiraCall)
    (k : List JiraCall → NotifyResult) :
    afterCall beh trace c k = k (trace ++ [c]) := by
  rw [afterCall, hb]

theorem syncSummary_eq (inp : NotifyInput) (issueSummary : String) (issue : Issue)
    (k : List JiraCall → NotifyResult) (trace : List JiraCall)
    (hb : inp.beh = fun _ => none) :
    syncSummary inp issueSummary issue k trace =
      k (trace ++ syncSummaryCalls inp issueSummary issue) := by
  rw [syncSummary, syncSummaryCalls]
  split_ifs <;> simp [afterCall_ok hb]

theorem syncComment_eq (inp : NotifyInput) (issueDesc : String) (issue : Issue)
    (k : List JiraCall → NotifyResult) (trace : List JiraCall)
    (hb : inp.beh = fun _ => none) :
    syncComment inp issueDesc issue k trace =
      k (trace ++ syncCommentCalls inp issueDesc issue) := by
  rw [syncComment, syncCommentCalls]
  split_ifs <;> simp [afterCall_ok hb]

theorem syncDescription_eq (inp : NotifyInput) (issueDesc : String) (issue : Issue)
    (k : List JiraCall → NotifyResult) (trace : List JiraCall)
    (hb : inp.beh = fun _ => none) :
    syncDescription inp issueDesc issue k trace =
      k (trace ++ syncDescriptionCalls inp issueDesc issue) := by
  rw [syncDescription, syncDescriptionCalls]
  split_ifs <;> simp [afterCall_ok hb]

theorem syncPriority_eq (inp : NotifyInput) (issuePriority : String) (issue : Issue)
    (k : List JiraCall → NotifyResult) (trace : List JiraCall)
    (hb : inp.beh = fun _ => none) :
    syncPriority inp issuePriority issue k trace =
      k (trace ++ syncPriorityCalls inp issuePriority issue) := by
  rw [syncPriority, syncPriorityCalls]
  split_ifs
  · cases hp : issue.priority with
    | some p =>
      simp only []
      split_ifs <;> simp [afterCall_ok hb]
    | none => simp
  · simp

theorem notifyTail_eq (inp : NotifyInput) (issue : Issue) (trace : List JiraCall)
    (hb : inp.beh = fun _ => none) :
    notifyTail inp issue trace =
      ⟨trace ++ notifyTailCalls inp issue, false, none⟩ := by
  rw [notifyTail, notifyTailCalls]
  split_ifs
  · cases inp.conf.autoResolve with
    | some state => simp [afterCall_ok hb]
    | none => simp
  all_goals simp [afterCall_ok hb]

theorem notifyExisting_eq (inp : NotifyInput)
    (issueSummary issuePriority issueDesc : String) (issue : Issue)
    (hb : inp.beh = fun _ => none) :
    notifyExisting inp issueSummary issuePriority issueDesc issue =
      ⟨syncSummaryCalls inp issueSummary issue ++
        (syncCommentCalls inp issueDesc issue ++
          (syncDescriptionCalls inp issueDesc issue ++
            (syncPriorityCalls inp issuePriority issue ++
              notifyTailCalls inp issue))), false, none⟩ := by
  rw [notifyExisting, syncSummary_eq _ _ _ _ _ hb, syncComment_eq _ _ _ _ _ hb,
    syncDescription_eq _ _ _ _ _ hb, syncPriority_eq _ _ _ _ _ hb,
    notifyTail_eq _ _ _ hb]
  simp

/-! ### Safety: the matched-ticket branch issues only field syncs before the
lifecycle tail -/

/-- A field-sync mutation: neither a transition nor a creation. -/
def isSyncCall : JiraCall → Prop
  | .updateSummary _ _ => True
  | .addComment _ _ => True
  | .updateDescription _ _ => True
  | .updatePriority _ _ => True
  | .transition _ _ => False
  | .create _ => False

theorem afterCall_sync (beh : JiraCall → Option (Bool × String))
    (trace : List JiraCall) (c : JiraCall) (k : List JiraCall → NotifyResult)
    (hk : ∀ tr, (∀ x ∈ tr, isSyncCall x) → ∀ x ∈ (k tr).calls, isSyncCall x)
    (htr : ∀ x ∈ trace, isSyncCall x) (hc : isSyncCall c) :
    ∀ x ∈ (afterCall beh trace c k).calls, isSyncCall x := by
  have hext : ∀ x ∈ trace ++ [c], isSyncCall x := by
    intro x hx
    rcases List.mem_append.mp hx with h | h
    · exact htr x h
    · rcases List.mem_singleton.mp h with rfl; exact hc
  rw [afterCall]
  cases hbc : beh c with
  | some p => cases p with
    | mk retry e => exact hext
  | none => exact hk _ hext

theorem syncSummary_sync (inp : NotifyInput) (issueSummary : String) (issue : Issue)
    (k : List JiraCall → NotifyResult) (trace : List JiraCall)
    (hk : ∀ tr, (∀ x ∈ tr, isSyncCall x) → ∀ x ∈ (k tr).calls, isSyncCall x)
    (htr : ∀ x ∈ trace, isSyncCall x) :
    ∀ x ∈ (syncSummary inp issueSummary issue k trace).calls, isSyncCall x := by
  rw [syncSummary]
  split_ifs
  · exact afterCall_sync _ _ _ _ hk htr trivial
  · exact hk _ htr
  · exact hk _ htr

theorem syncComment_sync (inp : NotifyInput) (issueDesc : String) (issue : Issue)
    (k : List JiraCall → NotifyResult) (trace : List JiraCall)
    (hk : ∀ tr, (∀ x ∈ tr, isSyncCall x) → ∀ x ∈ (k tr).calls, isSyncCall x)
    (htr : ∀ x ∈ trace, isSyncCall x) :
    ∀ x ∈ (syncComment inp issueDesc issue k trace).calls, isSyncCall x := by
  rw [syncComment]
  split_ifs
  · exact hk _ htr
  · exact hk _ htr
  · exact afterCall_sync _ _ _ _ hk htr trivial
  · exact hk _ htr

theorem syncDescription_sync (inp : NotifyInput) (issueDesc : String) (issue : Issue)
    (k : List JiraCall → NotifyResult) (trace : List JiraCall)
    (hk : ∀ tr, (∀ x ∈ tr, isSyncCall x) → ∀ x ∈ (k tr).calls, isSyncCall x)
    (htr : ∀ x ∈ trace, isSyncCall x) :
    ∀ x ∈ (syncDescription inp issueDesc issue k trace).calls, isSyncCall x := by
  rw [syncDescription]
  split_ifs
  · exact afterCall_sync _ _ _ _ hk htr trivial
  · exact hk _ htr
  · exact hk _ htr

theorem syncPriority_sync (inp : NotifyInput) (issuePriority : String) (issue : Issue)
    (k : List JiraCall → NotifyResult) (trace : List JiraCall)
    (hk : ∀ tr, (∀ x ∈ tr, isSyncCall x) → ∀ x ∈ (k tr).calls, isSyncCall x)
    (htr : ∀ x ∈ trace, isSyncCall x) :
    ∀ x ∈ (syncPriority inp issuePriority issue k trace).calls, isSyncCall x := by
  rw [syncPriority]
  split_ifs
  · cases issue.priority with
    | some p =>
      simp only []
      split_ifs
      · exact afterCall_sync _ _ _ _ hk htr trivial
      · exact hk _ htr
    | none => exact hk _ htr
  · exact hk _ htr

/-- Under a firing notification whose matched ticket carries the exempt
resolution, the lifecycle tail stops without issuing anything. -/
theorem notifyTail_wontFix (inp : NotifyInput) (issue : Issue) (trace : List JiraCall)
    (hfiring : (firingAlerts inp.data.alerts).length ≠ 0)
    (hwfx : inp.conf.wontFixResolution ≠ "")
    (hres : issue.resolution = some inp.conf.wontFixResolution) :
    notifyTail inp issue trace = ⟨trace, false, none⟩ := by
  rw [notifyTail]
  rw [if_neg hfiring]
  split_ifs with h1 h2 h3
  · rfl
  · rfl
  · exact absurd ⟨hwfx, hres⟩ h3
  · rfl

/-- With firing alerts and an exempt resolution every call issued by the
matched-ticket branch is a field sync. -/
theorem notifyExisting_wontFix_sync (inp : NotifyInput)
    (issueSummary issuePriority issueDesc : String) (issue : Issue)
    (hfiring : (firingAlerts inp.data.alerts).length ≠ 0)
    (hwfx : inp.conf.wontFixResolution ≠ "")
    (hres : issue.resolution = some inp.conf.wontFixResolution) :
    ∀ x ∈ (notifyExisting inp issueSummary issuePriority issueDesc issue).calls,
      isSyncCall x := by
  rw [notifyExisting]
  apply syncSummary_sync
  · intro tr htr
    apply syncComment_sync
    · intro tr2 htr2
      apply syncDescription_sync
      · intro tr3 htr3
        apply syncPriority_sync
        · intro tr4 htr4
          rw [notifyTail_wontFix _ _ _ hfiring hwfx hres]
          exact htr4
        · exact htr3
      · exact htr2
    · exact htr
  · intro x hx
    exact absurd hx (List.not_mem_nil x)

/-! ### The creation branch under a total template engine -/

mutual

theorem deepCopyWithTemplate_ok (f : String → String) :
    ∀ v : FieldValue, ∃ v', deepCopyWithTemplate (fun s => .ok (f s)) v = .ok v'
  | .str s => ⟨.str (f s), by rw [deepCopyWithTemplate]⟩
  | .seq l => by
    obtain ⟨l', hl⟩ := deepCopySeq_ok f l
    exact ⟨.seq l', by rw [deepCopyWithTemplate, hl]⟩
  | .map l => by
    obtain ⟨l', hl⟩ := deepCopyMap_ok f l
    exact ⟨.map l', by rw [deepCopyWithTemplate, hl]⟩
  | .other => ⟨.other, by rw [deepCopyWithTemplate]⟩

theorem deepCopySeq_ok (f : String → String) :
    ∀ l : List FieldValue, ∃ l', deepCopySeq (fun s => .ok (f s)) l = .ok l'
  | [] => ⟨[], by rw [deepCopySeq]⟩
  | v :: rest => by
    obtain ⟨v', hv⟩ := deepCopyWithTemplate_ok f v
    obtain ⟨rest', hrest⟩ := deepCopySeq_ok f rest
    exact ⟨v' :: rest', by rw [deepCopySeq, hv, hrest]⟩

theorem deepCopyMap_ok (f : String → String) :
    ∀ l : List (String × FieldValue),
      ∃ l', deepCopyMap (fun s => .ok (f s)) l = .ok l'
  | [] => ⟨[], by rw [deepCopyMap]⟩
  | (k, v) :: rest => by
    obtain ⟨v', hv⟩ := deepCopyWithTemplate_ok f v
    obtain ⟨rest', hrest⟩ := deepCopyMap_ok f rest
    exact ⟨(f k, v') :: rest', by rw [deepCopyMap, hv, hrest]⟩

end

theorem fieldsRender_ok (f : String → String) :
    ∀ l : List (String × FieldValue),
      ∃ l', fieldsRender (fun s => .ok (f s)) l = .ok l'
  | [] => ⟨[], by rw [fieldsRender]⟩
  | (k, v) :: rest => by
    obtain ⟨v', hv⟩ := deepCopyWithTemplate_ok f v
    obtain ⟨rest', hrest⟩ := fieldsRender_ok f rest
    exact ⟨(k, v') :: rest', by rw [fieldsRender, hv, hrest]⟩

theorem componentsRender_ok (f : String → String) :
    ∀ l : List String, componentsRender (fun s => .ok (f s)) l = .ok (l.map f)
  | [] => by rw [componentsRender]; rfl
  | c :: rest => by
    rw [componentsRender, componentsRender_ok f rest]
    rfl

theorem afterCall_calls_singleton (beh : JiraCall → Option (Bool × String))
    (c : JiraCall) :
    (afterCall beh [] c (fun tr => ⟨tr, false, none⟩)).calls = [c] := by
  rw [afterCall]
  cases hbc : beh c with
  | some p => cases p; simp
  | none => simp

/-- Whatever the template engine and backend do, the creation branch issues
nothing but Create calls. -/
theorem notifyCreate_creates_only (inp : NotifyInput)
    (project issueGroupLabel issueSummary issueDesc : String) :
    ∀ c ∈ (notifyCreate inp project issueGroupLabel issueSummary issueDesc).calls,
      ∃ ni, c = JiraCall.create ni := by
  rw [notifyCreate]
  repeat' split
  all_goals try simp
  all_goals
    simp only [afterCall_calls_singleton]
  all_goals
    intro c hc
  all_goals
    rw [List.mem_singleton] at hc
  all_goals
    exact ⟨_, hc⟩

/-- Under a total template engine, a firing notification drives the creation
branch to exactly one Create call carrying the assembled labels, summary,
project and description. -/
theorem notifyCreate_creates (inp : NotifyInput)
    (project issueGroupLabel issueSummary issueDesc : String) (f : String → String)
    (hr : inp.render = fun s => .ok (f s))
    (hfiring : (firingAlerts inp.data.alerts).length ≠ 0) :
    ∃ ni : NewIssue,
      (notifyCreate inp project issueGroupLabel issueSummary issueDesc).calls =
        [JiraCall.create ni] ∧
      ni.labels = inp.conf.staticLabels ++ [issueGroupLabel] ++
        (if inp.conf.addGroupLabels = some true then
          groupLabelEntries inp.data.groupLabels else []) ∧
      ni.summary = issueSummary ∧ ni.project = project ∧
      ni.description = issueDesc := by
  rw [notifyCreate, if_neg hfiring, hr]
  obtain ⟨unknowns, hfr⟩ := fieldsRender_ok f inp.conf.fields
  simp only [componentsRender_ok, hfr, Except.map]
  by_cases hp : inp.conf.priority ≠ ""
  · rw [if_pos hp]
    simp only []
    refine ⟨_, afterCall_calls_singleton _ _, ?_, rfl, rfl, rfl⟩
    split_ifs <;> simp
  · rw [if_neg hp]
    simp only []
    refine ⟨_, afterCall_calls_singleton _ _, ?_, rfl, rfl, rfl⟩
    split_ifs <;> simp

/-- Under a total template engine Notify is the lookup followed by the
matched or creation branch on the rendered field values. -/
theorem notify_unfold (inp : NotifyInput) (f : String → String)
    (hr : inp.render = fun s => .ok (f s)) :
    notify inp =
      match findIssueToReuse inp.conf inp.now inp.searchFn (f inp.conf.project)
          (toGroupTicketLabel inp.digest inp.data.groupLabels inp.hashJiraLabel) with
      | .error (retry, e) => ⟨[], retry, some e⟩
      | .ok (some issue) =>
        notifyExisting inp (f inp.conf.summary) (f inp.conf.priority)
          (truncateDescription inp.maxDescriptionLength (f inp.conf.description)) issue
      | .ok none =>
        notifyCreate inp (f inp.conf.project)
          (toGroupTicketLabel inp.digest inp.data.groupLabels inp.hashJiraLabel)
          (f inp.conf.summary)
          (truncateDescription inp.maxDescriptionLength (f inp.conf.description)) := by
  rw [notify, hr]
  simp only []
  cases hfind : findIssueToReuse inp.conf inp.now inp.searchFn (f inp.conf.project)
      (toGroupTicketLabel inp.digest inp.data.groupLabels inp.hashJiraLabel) with
  | error e => cases e; rfl
  | ok issueOpt => cases issueOpt <;> rfl

/-! ### Claim theorems -/

/-- C5: the plain-mode group identity encoder is a pure function of the
key-sorted label pairs — two group-label mappings holding the same pairs in
any order yield the identical string — and on the pairs a maps-to b, c
maps-to d it yields the string ALERT brace a equals quoted b comma c equals
quoted d brace. -/
theorem plain_label_pure_of_sorted_pairs (digest : String → String)
    (kv1 kv2 : List (String × String))
    (hperm : kv1.Perm kv2) (hnd : (kv1.map Prod.fst).Nodup) :
    toGroupTicketLabel digest kv1 false = toGroupTicketLabel digest kv2 false ∧
    toGroupTicketLabel (fun s => s) [("a", "b"), ("c", "d")] false =
      "ALERT\x7ba=\"b\",c=\"d\"\x7d" := by
  refine ⟨?_, by decide⟩
  rw [toGroupTicketLabel, toGroupTicketLabel, sortedPairs_perm_eq hperm hnd]

/-- Witness for C5 at the spec's own example: the two orderings of the pairs
a maps-to b and c maps-to d produce the identical plain-mode label. -/
theorem plain_label_pure_of_sorted_pairs_witness :
    toGroupTicketLabel (fun s => s) [("a", "b"), ("c", "d")] false =
      toGroupTicketLabel (fun s => s) [("c", "d"), ("a", "b")] false :=
  (plain_label_pure_of_sorted_pairs (fun s => s) [("a", "b"), ("c", "d")]
    [("c", "d"), ("a", "b")] (by decide) (by decide)).1

/-- C9: the plain-mode group ticket label never contains a space character —
every space of the formatted string, spaces inside label values included, is
deleted — and consequently the two distinct mappings a maps-to b-space-c and
a maps-to bc collide on the identical plain-mode label. -/
theorem plain_label_no_space :
    (∀ (digest : String → String) (kv : List (String × String)),
      ' ' ∉ (toGroupTicketLabel digest kv false).data) ∧
    ([("a", "b c")] : List (String × String)) ≠ [("a", "bc")] ∧
    toGroupTicketLabel (fun s => s) [("a", "b c")] false =
      toGroupTicketLabel (fun s => s) [("a", "bc")] false := by
  refine ⟨?_, by decide, by decide⟩
  intro digest kv h
  rw [toGroupTicketLabel] at h
  simp only [Bool.false_eq_true, if_false] at h
  have := (List.mem_filter.mp h).2
  simp at this

/-- C7 counterexample: merging defaults d with receiver r yields the list r
then d, not the defaults-first list the claim asserts. -/
theorem staticLabels_merge_counterexample :
    mergeStaticLabels ["d"] ["r"] ≠ ["d"] ++ ["r"] := by decide

/-- C7 (amended): the merged staticLabels list is the defaults list appended
to the receiver list — receiver elements first — preserving every element of
both, and duplicate labels are not deduplicated (every label occurs as often
as in the two inputs combined). -/
theorem staticLabels_merge (defaults receiver : List String) :
    mergeStaticLabels defaults receiver = receiver ++ defaults ∧
    ∀ l : String, (mergeStaticLabels defaults receiver).count l =
      receiver.count l + defaults.count l := by
  have h : mergeStaticLabels defaults receiver = receiver ++ defaults := by
    rw [mergeStaticLabels]
    split_ifs with hlen
    · rfl
    · have hnil : defaults = [] := List.eq_nil_of_length_eq_zero (by omega)
      simp [hnil]
  exact ⟨h, fun l => by rw [h, List.count_append]⟩

/-- C8: on text without the template delimiter, Execute returns the text
unchanged with no error, for every engine and every data value — the fast
path performs no parsing. -/
theorem execute_no_delimiter_identity {α : Type}
    (engine : String → α → Except String String) (text : String) (data : α)
    (h : containsTemplateDelim text = false) :
    Execute engine text data = .ok text := by
  rw [Execute, if_pos h]

/-- Witness for C8: a delimiter-free project name passes through an engine
that would fail on any parse. -/
theorem execute_no_delimiter_identity_witness :
    containsTemplateDelim "static project name" = false ∧
    Execute (fun _ _ => .error "parse failure") "static project name" (0 : Nat) =
      .ok "static project name" :=
  ⟨by decide, execute_no_delimiter_identity _ _ _ (by decide)⟩

/-- C6: a failed backend call is classified retryable exactly when a response
is present whose status code is 500, 503 or 429; with a non-nil incoming
error every outcome carries a non-nil final error, and every other non-2xx
response or local failure comes out non-retryable. -/
theorem retryable_iff_transient_status (api : String) (resp : Option JiraResponse)
    (err : Option String) (herr : err ≠ none) :
    ((handleJiraErrResponse api resp err).1 = true ↔
      ∃ r, resp = some r ∧
        (r.statusCode = 500 ∨ r.statusCode = 503 ∨ r.statusCode = 429)) ∧
    (handleJiraErrResponse api resp err).2 ≠ none := by
  cases resp with
  | none =>
    refine ⟨by simp [handleJiraErrResponse], ?_⟩
    cases err with
    | none => exact absurd rfl herr
    | some e => simp [handleJiraErrResponse]
  | some r =>
    rw [handleJiraErrResponse]
    by_cases h2 : r.statusCode / 100 ≠ 2
    · rw [if_pos h2]
      refine ⟨?_, by simp⟩
      simp only [Bool.or_eq_true, beq_iff_eq]
      constructor
      · intro hb
        exact ⟨r, rfl, by tauto⟩
      · rintro ⟨r', hr', hcode⟩
        injection hr' with hr'
        subst hr'
        tauto
    · rw [if_neg h2]
      push_neg at h2
      constructor
      · simp only [Bool.false_eq_true, false_iff]
        rintro ⟨r', hr', hcode⟩
        injection hr' with hr'
        subst hr'
        rcases hcode with h | h | h <;> omega
      · cases err with
        | none => exact absurd rfl herr
        | some e => simp

/-- Witness for C6: a 500 response is retryable with an error, and a 404
response is not retryable. -/
theorem retryable_iff_transient_status_witness :
    ((handleJiraErrResponse "Issue.Create" (some ⟨500, "500 error", "b", "u"⟩)
        (some "boom")).1 = true ↔
      ∃ r, (some (⟨500, "500 error", "b", "u"⟩ : JiraResponse)) = some r ∧
        (r.statusCode = 500 ∨ r.statusCode = 503 ∨ r.statusCode = 429)) ∧
    (handleJiraErrResponse "Issue.Create" (some ⟨500, "500 error", "b", "u"⟩)
        (some "boom")).2 ≠ none :=
  retryable_iff_transient_status "Issue.Create" (some ⟨500, "500 error", "b", "u"⟩)
    (some "boom") (by decide)

/-- C10: a matched ticket whose resolution timestamp is the zero value is
reused by findIssueToReuse regardless of the reopen window and of the current
time — the stale-window rejection applies only to non-zero resolution
timestamps. -/
theorem zero_resolutiondate_always_reused (conf : ReceiverConfig) (now : Int)
    (searchFn : String → Except (Bool × String) (List Issue))
    (project issueGroupLabel : String) (issue : Issue) (rest : List Issue)
    (hs : searchFn (searchQuery (projectsToSearch conf project) issueGroupLabel) =
      .ok (issue :: rest))
    (hz : issue.resolutiondate = 0) :
    findIssueToReuse conf now searchFn project issueGroupLabel = .ok (some issue) := by
  rw [findIssueToReuse, search, hs]
  simp only []
  rw [if_neg (fun h => h.1 hz)]

/-- Concrete configuration for the C10 witness: a one-hour-like non-zero
reopen window. -/
def c10Conf : ReceiverConfig :=
  ⟨"P", [], "Bug", "sum", "Reopen", 5, "", "desc", "", [], [], none, none, none, []⟩

/-- Concrete matched ticket for the C10 witness: resolved category but zero
resolution timestamp. -/
def c10Issue : Issue := ⟨"K", "sum", "desc", none, "done", none, 0, []⟩

/-- Witness for C10: with a non-zero window and a far-future current time the
zero-timestamp ticket is still reused. -/
theorem zero_resolutiondate_always_reused_witness :
    findIssueToReuse c10Conf 1000000 (fun _ => .ok [c10Issue]) "P" "L" =
      .ok (some c10Issue) :=
  zero_resolutiondate_always_reused c10Conf 1000000 (fun _ => .ok [c10Issue])
    "P" "L" c10Issue [] rfl rfl

/-- C1: when the search hit's resolution timestamp is non-zero and outside
the non-zero reopen window, findIssueToReuse reports no match, every call the
reconciliation issues is a Create (the stale ticket is not mutated), and with
firing alerts present exactly one ticket is created. -/
theorem stale_match_treated_as_absent (inp : NotifyInput) (f : String → String)
    (issue : Issue) (rest : List Issue)
    (hr : inp.render = fun s => .ok (f s))
    (hs : inp.searchFn (searchQuery
        (projectsToSearch inp.conf (f inp.conf.project))
        (toGroupTicketLabel inp.digest inp.data.groupLabels inp.hashJiraLabel)) =
      .ok (issue :: rest))
    (hrt : issue.resolutiondate ≠ 0)
    (hstale : issue.resolutiondate + inp.conf.reopenDuration < inp.now)
    (hdur : inp.conf.reopenDuration ≠ 0) :
    findIssueToReuse inp.conf inp.now inp.searchFn (f inp.conf.project)
        (toGroupTicketLabel inp.digest inp.data.groupLabels inp.hashJiraLabel) =
      .ok none ∧
    (∀ c ∈ (notify inp).calls, ∃ ni, c = JiraCall.create ni) ∧
    ((firingAlerts inp.data.alerts).length ≠ 0 →
      ∃ ni, (notify inp).calls = [JiraCall.create ni]) := by
  have hfind : findIssueToReuse inp.conf inp.now inp.searchFn (f inp.conf.project)
      (toGroupTicketLabel inp.digest inp.data.groupLabels inp.hashJiraLabel) =
      .ok none := by
    rw [findIssueToReuse, search, hs]
    simp only []
    rw [if_pos ⟨hrt, hstale, hdur⟩]
  have hnotify : notify inp = notifyCreate inp (f inp.conf.project)
      (toGroupTicketLabel inp.digest inp.data.groupLabels inp.hashJiraLabel)
      (f inp.conf.summary)
      (truncateDescription inp.maxDescriptionLength (f inp.conf.description)) := by
    rw [notify_unfold inp f hr, hfind]
  refine ⟨hfind, ?_, ?_⟩
  · rw [hnotify]
    exact notifyCreate_creates_only _ _ _ _ _
  · intro hfiring
    rw [hnotify]
    obtain ⟨ni, hni, _⟩ := notifyCreate_creates _ _ _ _ _ f hr hfiring
    exact ⟨ni, hni⟩

/-- Concrete input for the C1 witness: window 5, resolution at 1, now 100,
one firing alert. -/
def c1Conf : ReceiverConfig :=
  ⟨"P", [], "Bug", "sum", "Reopen", 5, "", "desc", "", [], [], none, none, none, []⟩

/-- Stale resolved ticket for the C1 witness. -/
def c1Issue : Issue := ⟨"K", "sum", "desc", none, "done", none, 1, []⟩

/-- Notify input for the C1 witness. -/
def c1Input : NotifyInput :=
  ⟨c1Conf, false, false, false, true, 100, false, ⟨[("a", "b")], [⟨"firing"⟩]⟩,
    fun s => .ok s, fun s => s, fun _ => .ok [c1Issue], fun _ => none, 100⟩

/-- Witness for C1: the stale hit is dropped and one fresh ticket is
created. -/
theorem stale_match_treated_as_absent_witness :
    findIssueToReuse c1Input.conf c1Input.now c1Input.searchFn "P"
        (toGroupTicketLabel c1Input.digest c1Input.data.groupLabels
          c1Input.hashJiraLabel) = .ok none ∧
    ∃ ni, (notify c1Input).calls = [JiraCall.create ni] :=
  ⟨(stale_match_treated_as_absent c1Input (fun s => s) c1Issue [] rfl rfl
      (by decide) (by decide) (by decide)).1,
   (stale_match_treated_as_absent c1Input (fun s => s) c1Issue [] rfl rfl
      (by decide) (by decide) (by decide)).2.2 (by decide)⟩

/-- C2 (amended): when lookup finds no usable match, a notification with zero
firing alerts issues no backend mutation at all, and one with at least one
firing alert issues exactly one create call whose labels list is the
configured staticLabels followed by the group ticket label — extended by one
name equals quoted-value entry per group label when addGroupLabels is
enabled — and whose summary is the rendered summary template. -/
theorem no_usable_match_create (inp : NotifyInput) (f : String → String)
    (hr : inp.render = fun s => .ok (f s))
    (hfind : findIssueToReuse inp.conf inp.now inp.searchFn (f inp.conf.project)
        (toGroupTicketLabel inp.digest inp.data.groupLabels inp.hashJiraLabel) =
      .ok none) :
    ((firingAlerts inp.data.alerts).length = 0 → (notify inp).calls = []) ∧
    ((firingAlerts inp.data.alerts).length ≠ 0 →
      ∃ ni : NewIssue, (notify inp).calls = [JiraCall.create ni] ∧
        ni.labels = inp.conf.staticLabels ++
            [toGroupTicketLabel inp.digest inp.data.groupLabels inp.hashJiraLabel] ++
          (if inp.conf.addGroupLabels = some true then
            groupLabelEntries inp.data.groupLabels else []) ∧
        ni.summary = f inp.conf.summary) := by
  have hnotify : notify inp = notifyCreate inp (f inp.conf.project)
      (toGroupTicketLabel inp.digest inp.data.groupLabels inp.hashJiraLabel)
      (f inp.conf.summary)
      (truncateDescription inp.maxDescriptionLength (f inp.conf.description)) := by
    rw [notify_unfold inp f hr, hfind]
  constructor
  · intro h0
    rw [hnotify, notifyCreate, if_pos h0]
  · intro hfiring
    rw [hnotify]
    obtain ⟨ni, h1, h2, h3, _, _⟩ := notifyCreate_creates _ _ _ _ _ f hr hfiring
    exact ⟨ni, h1, h2, h3⟩

/-- Configuration with addGroupLabels enabled for the C2 counterexample. -/
def c2cConf : ReceiverConfig :=
  ⟨"P", [], "Bug", "summary text", "Reopen", 0, "", "desc text", "", [], [],
    some true, none, none, []⟩

/-- Notify input for the C2 counterexample: empty backend, one firing
alert, one group label. -/
def c2cInput : NotifyInput :=
  ⟨c2cConf, false, false, false, false, 100, false, ⟨[("a", "b")], [⟨"firing"⟩]⟩,
    fun s => .ok s, fun s => s, fun _ => .ok [], fun _ => none, 0⟩

/-- Ticket created at the C2 counterexample input. -/
def c2cCreated : NewIssue :=
  ⟨"P", "Bug", "desc text", "summary text",
    ["ALERT\x7ba=\"b\"\x7d", "a=\"b\""], none, [], []⟩

/-- C2 counterexample: with addGroupLabels enabled the single created
ticket's labels are the staticLabels, the group ticket label and then one
entry per group label — not the staticLabels followed by the group ticket
label alone, as the claim states. -/
theorem no_usable_match_create_counterexample :
    (notify c2cInput).calls = [JiraCall.create c2cCreated] ∧
    c2cCreated.labels ≠ c2cInput.conf.staticLabels ++
      [toGroupTicketLabel c2cInput.digest c2cInput.data.groupLabels
        c2cInput.hashJiraLabel] :=
  ⟨rfl, by decide⟩

/-- Configuration for the C2 witness: one static label, addGroupLabels off. -/
def c2wConf : ReceiverConfig :=
  ⟨"P", [], "Bug", "summary text", "Reopen", 0, "", "desc", "", ["static1"], [],
    none, none, none, []⟩

/-- Firing-notification input for the C2 witness. -/
def c2wInput : NotifyInput :=
  ⟨c2wConf, false, false, false, false, 100, false, ⟨[("a", "b")], [⟨"firing"⟩]⟩,
    fun s => .ok s, fun s => s, fun _ => .ok [], fun _ => none, 0⟩

/-- Zero-firing-notification input for the C2 witness. -/
def c2w0Input : NotifyInput :=
  ⟨c2wConf, false, false, false, false, 100, false, ⟨[("a", "b")], [⟨"resolved"⟩]⟩,
    fun s => .ok s, fun s => s, fun _ => .ok [], fun _ => none, 0⟩

/-- Witness for C2: no mutation without firing alerts; with one firing alert
exactly one create call carrying static label, group label and summary. -/
theorem no_usable_match_create_witness :
    (notify c2w0Input).calls = [] ∧
    ∃ ni : NewIssue, (notify c2wInput).calls = [JiraCall.create ni] ∧
      ni.labels = c2wInput.conf.staticLabels ++
          [toGroupTicketLabel c2wInput.digest c2wInput.data.groupLabels
            c2wInput.hashJiraLabel] ++
        (if c2wInput.conf.addGroupLabels = some true then
          groupLabelEntries c2wInput.data.groupLabels else []) ∧
      ni.summary = (fun s => s) c2wInput.conf.summary :=
  ⟨(no_usable_match_create c2w0Input (fun s => s) rfl rfl).1 (by decide),
   (no_usable_match_create c2wInput (fun s => s) rfl rfl).2 (by decide)⟩

/-- C3: across every sequence of reconcile calls (each call's outcome is a
function of its own input alone — the engine holds no cross-call state), a
firing notification whose matched ticket carries the configured exempt
resolution never drives that ticket to the reopen state and creates no
ticket while it is the match lookup returns, whereas a matched resolved
ticket whose resolution name differs is driven to the reopen state when
firing alerts remain, reopening is enabled and the backend accepts the
preceding sync calls. -/
theorem wontFix_never_reopened (runs : List NotifyInput) (inp : NotifyInput)
    (f : String → String) (issue : Issue)
    (_hin : inp ∈ runs)
    (hr : inp.render = fun s => .ok (f s))
    (hfind : findIssueToReuse inp.conf inp.now inp.searchFn (f inp.conf.project)
        (toGroupTicketLabel inp.digest inp.data.groupLabels inp.hashJiraLabel) =
      .ok (some issue))
    (hfiring : (firingAlerts inp.data.alerts).length ≠ 0) :
    (inp.conf.wontFixResolution ≠ "" →
      issue.resolution = some inp.conf.wontFixResolution →
      JiraCall.transition issue.key inp.conf.reopenState ∉ (notify inp).calls ∧
      ∀ ni, JiraCall.create ni ∉ (notify inp).calls) ∧
    (issue.resolution ≠ some inp.conf.wontFixResolution →
      issue.statusCategoryKey = "done" →
      inp.reopenTickets = true →
      inp.beh = (fun _ => none) →
      JiraCall.transition issue.key inp.conf.reopenState ∈ (notify inp).calls) := by
  have hnotify : notify inp = notifyExisting inp (f inp.conf.summary)
      (f inp.conf.priority)
      (truncateDescription inp.maxDescriptionLength (f inp.conf.description))
      issue := by
    rw [notify_unfold inp f hr, hfind]
  constructor
  · intro hwfx hres
    have hsync := notifyExisting_wontFix_sync inp (f inp.conf.summary)
      (f inp.conf.priority)
      (truncateDescription inp.maxDescriptionLength (f inp.conf.description))
      issue hfiring hwfx hres
    rw [hnotify]
    constructor
    · intro hmem
      exact hsync _ hmem
    · intro ni hmem
      exact hsync _ hmem
  · intro hres hdone hreopen hb
    rw [hnotify, notifyExisting_eq _ _ _ _ _ hb]
    simp only [List.mem_append]
    refine Or.inr (Or.inr (Or.inr (Or.inr ?_)))
    rw [notifyTailCalls, if_neg hfiring, if_neg (by simp [hdone]), if_pos hreopen,
      if_neg (fun h => hres h.2)]
    exact List.mem_singleton.mpr rfl

/-- Configuration for the C3 witness: exempt resolution name WontFix. -/
def c3Conf : ReceiverConfig :=
  ⟨"P", [], "Bug", "sum", "Reopened", 0, "", "desc", "WontFix", [], [], none,
    none, none, []⟩

/-- Exempt-resolved matched ticket for the C3 witness. -/
def c3aIssue : Issue := ⟨"K1", "sum", "desc", none, "done", some "WontFix", 0, []⟩

/-- Ordinarily-resolved matched ticket for the C3 witness. -/
def c3bIssue : Issue := ⟨"K2", "sum", "desc", none, "done", some "Fixed", 0, []⟩

/-- Notify input matching the exempt ticket for the C3 witness. -/
def c3aInput : NotifyInput :=
  ⟨c3Conf, false, false, false, true, 100, false, ⟨[("a", "b")], [⟨"firing"⟩]⟩,
    fun s => .ok s, fun s => s, fun _ => .ok [c3aIssue], fun _ => none, 0⟩

/-- Notify input matching the ordinarily resolved ticket for the C3
witness. -/
def c3bInput : NotifyInput :=
  ⟨c3Conf, false, false, false, true, 100, false, ⟨[("a", "b")], [⟨"firing"⟩]⟩,
    fun s => .ok s, fun s => s, fun _ => .ok [c3bIssue], fun _ => none, 0⟩

/-- Witness for C3: the exempt ticket is neither reopened nor duplicated; the
ordinarily resolved ticket is driven to the reopen state. -/
theorem wontFix_never_reopened_witness :
    (JiraCall.transition "K1" "Reopened" ∉ (notify c3aInput).calls ∧
      ∀ ni, JiraCall.create ni ∉ (notify c3aInput).calls) ∧
    JiraCall.transition "K2" "Reopened" ∈ (notify c3bInput).calls :=
  ⟨(wontFix_never_reopened [c3aInput] c3aInput (fun s => s) c3aIssue
      (List.mem_singleton_self c3aInput) rfl rfl (by decide)).1
      (by decide) rfl,
   (wontFix_never_reopened [c3bInput] c3bInput (fun s => s) c3bIssue
      (List.mem_singleton_self c3bInput) rfl rfl (by decide)).2
      (by decide) rfl rfl rfl⟩

/-- C4: with comment mode enabled and a backend accepting every call, the
matched-ticket branch appends the rendered (truncated) description as a
comment exactly when it differs from the most recent existing comment —
or, when the ticket has no comments yet, from the ticket's current
description; in the two equal cases no comment call is issued. -/
theorem comment_appended_iff_differs (inp : NotifyInput) (f : String → String)
    (issue : Issue)
    (hr : inp.render = fun s => .ok (f s))
    (hb : inp.beh = fun _ => none)
    (hfind : findIssueToReuse inp.conf inp.now inp.searchFn (f inp.conf.project)
        (toGroupTicketLabel inp.digest inp.data.groupLabels inp.hashJiraLabel) =
      .ok (some issue))
    (hmode : inp.conf.updateInComment = some true) :
    JiraCall.addComment issue.key
        (truncateDescription inp.maxDescriptionLength (f inp.conf.description)) ∈
      (notify inp).calls ↔
    ((issue.comments = [] →
        issue.description ≠
          truncateDescription inp.maxDescriptionLength (f inp.conf.description)) ∧
     (issue.comments ≠ [] →
        issue.comments.getLastD "" ≠
          truncateDescription inp.maxDescriptionLength (f inp.conf.description))) := by
  have hnotify : notify inp = notifyExisting inp (f inp.conf.summary)
      (f inp.conf.priority)
      (truncateDescription inp.maxDescriptionLength (f inp.conf.description))
      issue := by
    rw [notify_unfold inp f hr, hfind]
  rw [hnotify, notifyExisting_eq _ _ _ _ _ hb]
  simp only [List.mem_append]
  have h1 : JiraCall.addComment issue.key
      (truncateDescription inp.maxDescriptionLength (f inp.conf.description)) ∉
      syncSummaryCalls inp (f inp.conf.summary) issue := by
    rw [syncSummaryCalls]
    split_ifs <;> simp
  have h3 : JiraCall.addComment issue.key
      (truncateDescription inp.maxDescriptionLength (f inp.conf.description)) ∉
      syncDescriptionCalls inp
        (truncateDescription inp.maxDescriptionLength (f inp.conf.description))
        issue := by
    rw [syncDescriptionCalls]
    split_ifs <;> simp
  have h4 : JiraCall.addComment issue.key
      (truncateDescription inp.maxDescriptionLength (f inp.conf.description)) ∉
      syncPriorityCalls inp (f inp.conf.priority) issue := by
    rw [syncPriorityCalls]
    split_ifs
    · cases issue.priority with
      | some p =>
        simp only []
        split_ifs <;> simp
      | none => simp
    · simp
  have h5 : JiraCall.addComment issue.key
      (truncateDescription inp.maxDescriptionLength (f inp.conf.description)) ∉
      notifyTailCalls inp issue := by
    rw [notifyTailCalls]
    split_ifs
    · cases inp.conf.autoResolve <;> simp
    all_goals simp
  constructor
  · rintro (h | h | h | h | h)
    · exact absurd h h1
    · rw [syncCommentCalls, if_pos hmode] at h
      split_ifs at h with hc1 hc2
      · exact absurd h (List.not_mem_nil _)
      · exact absurd h (List.not_mem_nil _)
      · constructor
        · intro hnil heq
          exact hc2 ⟨by rw [hnil]; rfl, heq⟩
        · intro hne heq
          exact hc1 ⟨List.length_pos.mpr hne, heq⟩
    · exact absurd h h3
    · exact absurd h h4
    · exact absurd h h5
  · rintro ⟨hA, hB⟩
    refine Or.inr (Or.inl ?_)
    rw [syncCommentCalls, if_pos hmode]
    split_ifs with hc1 hc2
    · exfalso
      obtain ⟨hlen, heq⟩ := hc1
      have hne : issue.comments ≠ [] := by
        intro hn
        rw [hn] at hlen
        simp at hlen
      exact hB hne heq
    · exfalso
      obtain ⟨hlen, heq⟩ := hc2
      exact hA (List.length_eq_zero.mp hlen) heq
    · exact List.mem_singleton.mpr rfl

/-- Configuration for the C4 witness: comment mode enabled. -/
def c4Conf : ReceiverConfig :=
  ⟨"P", [], "Bug", "sum", "Reopened", 0, "", "descT", "", [], [], none,
    some true, none, []⟩

/-- Matched open ticket with one older comment for the C4 witness. -/
def c4Issue : Issue :=
  ⟨"K", "sum", "old ticket description", none, "new", none, 0, ["older comment"]⟩

/-- Notify input for the C4 witness. -/
def c4Input : NotifyInput :=
  ⟨c4Conf, false, false, false, false, 100, false, ⟨[("a", "b")], [⟨"firing"⟩]⟩,
    fun s => .ok s, fun s => s, fun _ => .ok [c4Issue], fun _ => none, 0⟩

/-- Witness for C4: the rendered description differs from the last comment,
so the comment call is issued. -/
theorem comment_appended_iff_differs_witness :
    JiraCall.addComment "K" "descT" ∈ (notify c4Input).calls :=
  (comment_appended_iff_differs c4Input (fun s => s) c4Issue rfl rfl
      rfl rfl).mpr ⟨by decide, by decide⟩

end Jiralert
